import Mathlib

/-!
Verification of the codex-ratelimit-vscode webview core: the color
sanitizer (`src/utils/sanitize.ts`), and the `RateLimitWebView` class
(clamping, threshold classification, HTML escaping, CSP construction,
rendering, update routing and the singleton lifecycle).  JavaScript
numbers are modelled as an inductive type over the rationals with
explicit NaN and infinities; strings are Lean strings over the same
character sequences.
-/

namespace CodexRL

/-- Model of a JavaScript number: NaN, the two infinities, or a finite
value represented exactly as a rational. -/
inductive JSNum where
  | nan : JSNum
  | posInf : JSNum
  | negInf : JSNum
  | num : ℚ → JSNum
deriving DecidableEq

/-- `Number.isFinite` on the JS-number model. -/
def jsIsFinite : JSNum → Bool
  | .num _ => true
  | _ => false

/-- JS `>=` comparison: any comparison with NaN is false, infinities
compare as expected, finite values compare as rationals. -/
def jsGe : JSNum → JSNum → Bool
  | .nan, _ => false
  | _, .nan => false
  | .posInf, _ => true
  | .negInf, .negInf => true
  | .negInf, _ => false
  | .num _, .posInf => false
  | .num _, .negInf => true
  | .num a, .num b => decide (b ≤ a)

/-- JS `Math.min` (NaN-propagating). -/
def jsMin : JSNum → JSNum → JSNum
  | .nan, _ => .nan
  | _, .nan => .nan
  | .negInf, _ => .negInf
  | _, .negInf => .negInf
  | .posInf, y => y
  | x, .posInf => x
  | .num a, .num b => .num (min a b)

/-- JS `Math.max` (NaN-propagating). -/
def jsMax : JSNum → JSNum → JSNum
  | .nan, _ => .nan
  | _, .nan => .nan
  | .posInf, _ => .posInf
  | _, .posInf => .posInf
  | .negInf, y => y
  | x, .negInf => x
  | .num a, .num b => .num (max a b)

/-- `RateLimitWebView._clampPercentage` (webview revision with the clamp
helper): non-finite input maps to 0, otherwise
`Math.max(0, Math.min(100, value))`. -/
def clampPercentage (value : JSNum) : JSNum :=
  if !(jsIsFinite value) then .num 0
  else jsMax (.num 0) (jsMin (.num 100) value)

/-- `RateLimitWebView._getProgressClass`: the class for a time bar is
`"outdated"` when the window is outdated and empty otherwise; the
percentage argument is ignored. -/
def getProgressClass (_percentage : JSNum) (outdated : Bool) : String :=
  if outdated then "outdated" else ""

/-- `RateLimitWebView._getUsageClass`: `"outdated"` wins, else the
critical threshold is checked first, then the warning threshold.  The
thresholds are the configuration values read at call time, passed here
as explicit arguments. -/
def getUsageClass (percentage : JSNum) (outdated : Bool)
    (warningThreshold criticalThreshold : JSNum) : String :=
  if outdated then "outdated"
  else if jsGe percentage criticalThreshold then "high"
  else if jsGe percentage warningThreshold then "medium"
  else "low"

/-- The per-character replacement of `RateLimitWebView._escapeHtml`:
the five HTML-significant characters map to their entities, every other
character maps to itself. -/
def escapeChar (c : Char) : String :=
  match c with
  | '&' => "&amp;"
  | '<' => "&lt;"
  | '>' => "&gt;"
  | '"' => "&quot;"
  | '\'' => "&#39;"
  | _ => String.singleton c

/-- The character-list form of the global replace in
`RateLimitWebView._escapeHtml`: each character is replaced by the
character sequence `escapeChar` assigns to it, in order. -/
def escapeHtmlData : List Char → List Char
  | [] => []
  | c :: cs => (escapeChar c).data ++ escapeHtmlData cs

/-- `RateLimitWebView._escapeHtml`: `value.replace(/[&<>"']/g, ...)`,
i.e. the character-wise replacement applied across the string. -/
def escapeHtml (value : String) : String :=
  ⟨escapeHtmlData value.data⟩

theorem escapeHtmlData_append (l₁ l₂ : List Char) :
    escapeHtmlData (l₁ ++ l₂) = escapeHtmlData l₁ ++ escapeHtmlData l₂ := by
  induction l₁ with
  | nil => rfl
  | cons c cs ih => simp [escapeHtmlData, ih]

theorem escapeHtmlData_of_plain (l : List Char)
    (h : ∀ c ∈ l, c ∉ (['&', '<', '>', '"', '\''] : List Char)) :
    escapeHtmlData l = l := by
  induction l with
  | nil => rfl
  | cons c cs ih =>
      have hc := h c (by simp)
      have hcs : escapeHtmlData cs = cs := ih (fun d hd => h d (by simp [hd]))
      have hone : escapeChar c = String.singleton c := by
        unfold escapeChar
        simp only [List.mem_cons, List.not_mem_nil, or_false, not_or] at hc
        obtain ⟨h1, h2, h3, h4, h5⟩ := hc
        split <;> first | rfl | simp_all
      simp [escapeHtmlData, hone, hcs, String.singleton]

/-- C7: `_clampPercentage` maps every JS number to a finite value in
[0,100]; NaN and the two infinities map to 0, negative finite inputs to
0, finite inputs above 100 to 100, and finite inputs already in [0,100]
(such as 42.3) are returned unchanged. -/
theorem clampPercentage_spec :
    (∀ v : JSNum, ∃ r : ℚ, clampPercentage v = .num r ∧ 0 ≤ r ∧ r ≤ 100) ∧
    (clampPercentage .nan = .num 0 ∧ clampPercentage .posInf = .num 0 ∧
      clampPercentage .negInf = .num 0) ∧
    (∀ q : ℚ, q < 0 → clampPercentage (.num q) = .num 0) ∧
    (∀ q : ℚ, 100 < q → clampPercentage (.num q) = .num 100) ∧
    (∀ q : ℚ, 0 ≤ q → q ≤ 100 → clampPercentage (.num q) = .num q) := by
  have hnum : ∀ q : ℚ, clampPercentage (.num q) = .num (max 0 (min 100 q)) := by
    intro q; rfl
  refine ⟨?_, ⟨rfl, rfl, rfl⟩, ?_, ?_, ?_⟩
  · intro v
    cases v with
    | num q =>
        refine ⟨max 0 (min 100 q), hnum q, le_max_left _ _, ?_⟩
        exact max_le (by norm_num) (min_le_left _ _)
    | nan => exact ⟨0, rfl, le_refl 0, by norm_num⟩
    | posInf => exact ⟨0, rfl, le_refl 0, by norm_num⟩
    | negInf => exact ⟨0, rfl, le_refl 0, by norm_num⟩
  · intro q hq
    rw [hnum q, min_eq_right (le_of_lt (lt_trans hq (by norm_num))),
      max_eq_left (le_of_lt hq)]
  · intro q hq
    rw [hnum q, min_eq_left (le_of_lt hq), max_eq_right (by norm_num)]
  · intro q h0 h100
    rw [hnum q, min_eq_right h100, max_eq_right h0]

/-- C7 witness: concrete evaluations of the clamp contract. -/
theorem clampPercentage_spec_witness :
    clampPercentage (.num (-5)) = .num 0 ∧
    clampPercentage (.num 150) = .num 100 ∧
    clampPercentage (.num (423 / 10)) = .num (423 / 10) :=
  ⟨clampPercentage_spec.2.2.1 (-5) (by norm_num),
   clampPercentage_spec.2.2.2.1 150 (by norm_num),
   clampPercentage_spec.2.2.2.2 (423 / 10) (by norm_num) (by norm_num)⟩

/-- C6: `_getUsageClass` is a function of its four inputs; it returns
"outdated" whenever the outdated flag is set, otherwise "high" when the
percentage is at least the critical threshold (checked first, so ties
resolve toward critical even when warning > critical), otherwise
"medium" when at least the warning threshold, otherwise "low". -/
theorem getUsageClass_spec :
    ∀ (p w c : ℚ) (o : Bool),
      (o = true → getUsageClass (.num p) o (.num w) (.num c) = "outdated") ∧
      (o = false → c ≤ p →
        getUsageClass (.num p) o (.num w) (.num c) = "high") ∧
      (o = false → p < c → w ≤ p →
        getUsageClass (.num p) o (.num w) (.num c) = "medium") ∧
      (o = false → p < c → p < w →
        getUsageClass (.num p) o (.num w) (.num c) = "low") := by
  intro p w c o
  refine ⟨?_, ?_, ?_, ?_⟩
  · intro ho; simp [getUsageClass, ho]
  · intro ho h; simp [getUsageClass, ho, jsGe, h]
  · intro ho h hw; simp [getUsageClass, ho, jsGe, not_le.mpr h, hw]
  · intro ho h hw
    simp [getUsageClass, ho, jsGe, not_le.mpr h, not_le.mpr hw]

/-- C6 witness: the spec's concrete classifications at thresholds
warning 70 / critical 90, plus a tie with warning > critical resolving
to "high". -/
theorem getUsageClass_spec_witness :
    getUsageClass (.num 95) false (.num 70) (.num 90) = "high" ∧
    getUsageClass (.num 75) false (.num 70) (.num 90) = "medium" ∧
    getUsageClass (.num 10) false (.num 70) (.num 90) = "low" ∧
    getUsageClass (.num 10) true (.num 70) (.num 90) = "outdated" ∧
    getUsageClass (.num 50) false (.num 80) (.num 50) = "high" :=
  ⟨(getUsageClass_spec 95 70 90 false).2.1 rfl (by norm_num),
   (getUsageClass_spec 75 70 90 false).2.2.1 rfl (by norm_num) (by norm_num),
   (getUsageClass_spec 10 70 90 false).2.2.2 rfl (by norm_num) (by norm_num),
   (getUsageClass_spec 10 70 90 true).1 rfl,
   (getUsageClass_spec 50 80 50 false).2.1 rfl (by norm_num)⟩

/-- C10: `_getProgressClass` yields "outdated" exactly when the flag is
set and the empty string otherwise; it never yields a severity tier and
does not depend on the percentage argument. -/
theorem getProgressClass_spec :
    ∀ (p : JSNum) (o : Bool),
      (o = true → getProgressClass p o = "outdated") ∧
      (o = false → getProgressClass p o = "") ∧
      getProgressClass p o ≠ "low" ∧
      getProgressClass p o ≠ "medium" ∧
      getProgressClass p o ≠ "high" ∧
      (∀ p' : JSNum, getProgressClass p o = getProgressClass p' o) := by
  intro p o
  cases o with
  | true =>
      exact ⟨fun _ => rfl, fun h => absurd h (by decide),
        by simp [getProgressClass], by simp [getProgressClass],
        by simp [getProgressClass], fun _ => rfl⟩
  | false =>
      exact ⟨fun h => absurd h (by decide), fun _ => rfl,
        by simp [getProgressClass], by simp [getProgressClass],
        by simp [getProgressClass], fun _ => rfl⟩

/-- C10 witness: concrete evaluations of the time-bar class. -/
theorem getProgressClass_spec_witness :
    getProgressClass (.num 99) true = "outdated" ∧
    getProgressClass (.num 99) false = "" :=
  ⟨(getProgressClass_spec (.num 99) true).1 rfl,
   (getProgressClass_spec (.num 99) false).2.1 rfl⟩

/-- C8: `_escapeHtml` maps each of the five HTML-significant characters
to its entity and leaves strings without them unchanged; escaping
"<script>" yields "&lt;script&gt;", and escaping an already-escaped
string double-escapes (witnessed at "<"). -/
theorem escapeHtml_spec :
    escapeHtml "<script>" = "&lt;script&gt;" ∧
    (escapeHtml "&" = "&amp;" ∧ escapeHtml "<" = "&lt;" ∧
      escapeHtml ">" = "&gt;" ∧ escapeHtml "\"" = "&quot;" ∧
      escapeHtml "\'" = "&#39;") ∧
    (∀ s : String,
      (∀ c ∈ s.data, c ∉ (['&', '<', '>', '"', '\''] : List Char)) →
      escapeHtml s = s) ∧
    ('<' ∈ ("<" : String).data ∧
      escapeHtml (escapeHtml "<") ≠ escapeHtml "<") := by
  refine ⟨by decide, ⟨by decide, by decide, by decide, by decide, by decide⟩,
    ?_, by decide, by decide⟩
  intro s hs
  show String.mk (escapeHtmlData s.data) = s
  rw [escapeHtmlData_of_plain s.data hs]

/-- C8 witness: a string with none of the five characters is unchanged. -/
theorem escapeHtml_spec_witness : escapeHtml "abc" = "abc" :=
  escapeHtml_spec.2.2.1 "abc" (by decide)

/-! ### The color sanitizer (`src/utils/sanitize.ts`)

The three allow-list patterns `HEX_COLOR_PATTERN`, `RGB_COLOR_PATTERN`
and `HSL_COLOR_PATTERN` are anchored regular expressions; they are
embedded as executable recognizers over the character list.  Each
numeric component of the rgb/hsl patterns is delimited by characters
outside its own alphabet (whitespace, `,`, `)`, `%`), so the maximal
run of component characters must be matched in full, and the
recognizers read exactly that run and check it against the component
sub-language. -/

/-- JS whitespace as matched by `\s` and removed by `trim` (the ASCII
whitespace characters plus NBSP and the BOM). -/
def isJsWhitespace (c : Char) : Bool :=
  c = ' ' || c = '\t' || c = '\n' || c = '\r' || c = '\x0b' ||
  c = '\x0c' || c = '\u00A0' || c = '\uFEFF'

/-- ASCII decimal digit. -/
def isDigitChar (c : Char) : Bool := '0' ≤ c && c ≤ '9'

/-- Hexadecimal digit, `[a-fA-F0-9]`. -/
def isHexDigitChar (c : Char) : Bool :=
  isDigitChar c || ('a' ≤ c && c ≤ 'f') || ('A' ≤ c && c ≤ 'F')

/-- A digit or a decimal point, the alphabet of the numeric components
with fractional parts. -/
def isNumDotChar (c : Char) : Bool := isDigitChar c || c = '.'

/-- JS `String.prototype.trim`. -/
def jsTrim (s : String) : String :=
  ⟨((s.data.dropWhile isJsWhitespace).reverse.dropWhile isJsWhitespace).reverse⟩

/-- `HEX_COLOR_PATTERN`: `#` followed by exactly 3, 6 or 8 hex digits. -/
def hexColorTest (s : String) : Bool :=
  match s.data with
  | '#' :: rest =>
      (rest.length = 3 || rest.length = 6 || rest.length = 8) &&
      rest.all isHexDigitChar
  | _ => false

/-- `\s*`. -/
def skipWs (l : List Char) : List Char := l.dropWhile isJsWhitespace

/-- Consume one expected literal character. -/
def expectChar (c : Char) (l : List Char) : Option (List Char) :=
  match l with
  | d :: rest => if d = c then some rest else none
  | [] => none

/-- Decimal value of a digit run. -/
def digitsVal (ds : List Char) : ℕ :=
  ds.foldl (fun n c => 10 * n + (c.toNat - 48)) 0

/-- The `RGB_NUMBER` sub-language `[01]?\d?\d|2[0-4]\d|25[0-5]`: one or
two digits unrestricted, or three digits with value at most 255. -/
def rgbNumberTok (ds : List Char) : Bool :=
  ds.length = 1 || ds.length = 2 || (ds.length = 3 && digitsVal ds ≤ 255)

/-- Consume one rgb channel value. -/
def parseRgbNumber (l : List Char) : Option (List Char) :=
  if rgbNumberTok (l.takeWhile isDigitChar) then some (l.dropWhile isDigitChar)
  else none

/-- The `ALPHA_VALUE` sub-language `0|0?\.\d+|1(?:\.0+)?`. -/
def alphaTok (t : List Char) : Bool :=
  match t with
  | ['0'] => true
  | ['1'] => true
  | '.' :: ds => !ds.isEmpty && ds.all isDigitChar
  | '0' :: '.' :: ds => !ds.isEmpty && ds.all isDigitChar
  | '1' :: '.' :: ds => !ds.isEmpty && ds.all (fun c => c = '0')
  | _ => false

/-- Consume one alpha value. -/
def parseAlphaValue (l : List Char) : Option (List Char) :=
  if alphaTok (l.takeWhile isNumDotChar) then some (l.dropWhile isNumDotChar)
  else none

/-- The shared pattern tail `(?:\s*,\s*ALPHA)?\s*\)$`: optional comma
plus alpha value, closing parenthesis, end of string. -/
def closeTail (l : List Char) : Bool :=
  match skipWs l with
  | ')' :: rest => rest.isEmpty
  | ',' :: rest =>
      match parseAlphaValue (skipWs rest) with
      | some r =>
          match skipWs r with
          | ')' :: rest2 => rest2.isEmpty
          | _ => false
      | none => false
  | _ => false

/-- The opening `rgba?\(`. -/
def rgbTag : List Char → Option (List Char)
  | 'r' :: 'g' :: 'b' :: 'a' :: '(' :: rest => some rest
  | 'r' :: 'g' :: 'b' :: '(' :: rest => some rest
  | _ => none

/-- The three comma-separated channel values of `RGB_COLOR_PATTERN`. -/
def rgbChannels (l : List Char) : Option (List Char) :=
  (parseRgbNumber (skipWs l)).bind fun l =>
  (expectChar ',' (skipWs l)).bind fun l =>
  (parseRgbNumber (skipWs l)).bind fun l =>
  (expectChar ',' (skipWs l)).bind fun l =>
  parseRgbNumber (skipWs l)

/-- `RGB_COLOR_PATTERN`. -/
def rgbColorTest (s : String) : Bool :=
  match (rgbTag s.data).bind rgbChannels with
  | some l => closeTail l
  | none => false

/-- The opening `hsla?\(`. -/
def hslTag : List Char → Option (List Char)
  | 'h' :: 's' :: 'l' :: 'a' :: '(' :: rest => some rest
  | 'h' :: 's' :: 'l' :: '(' :: rest => some rest
  | _ => none

/-- The `HUE_COMPONENT` sub-language
`360(?:\.0+)?|3[0-5]\d(?:\.\d+)?|[12]?\d?\d(?:\.\d+)?`: the integer
part is one or two digits unrestricted, or three digits valued in
[100,359], or exactly `360` with a fractional part of zeros only. -/
def hueTok (t : List Char) : Bool :=
  let ds := t.takeWhile isDigitChar
  let rest := t.dropWhile isDigitChar
  let fracAny : Bool :=
    match rest with
    | [] => true
    | '.' :: fs => !fs.isEmpty && fs.all isDigitChar
    | _ => false
  let fracZero : Bool :=
    match rest with
    | [] => true
    | '.' :: fs => !fs.isEmpty && fs.all (fun c => c = '0')
    | _ => false
  if ds.length = 1 || ds.length = 2 then fracAny
  else if ds.length = 3 then
    if 100 ≤ digitsVal ds && digitsVal ds ≤ 359 then fracAny
    else if digitsVal ds = 360 then fracZero
    else false
  else false

/-- Consume one hue value. -/
def parseHue (l : List Char) : Option (List Char) :=
  if hueTok (l.takeWhile isNumDotChar) then some (l.dropWhile isNumDotChar)
  else none

/-- The integer-and-fraction part of `HSL_PERCENT`
`(100|[0-9]{1,2})(?:\.\d+)?` (before the `%` sign). -/
def pctTok (t : List Char) : Bool :=
  let ds := t.takeWhile isDigitChar
  let rest := t.dropWhile isDigitChar
  let fracAny : Bool :=
    match rest with
    | [] => true
    | '.' :: fs => !fs.isEmpty && fs.all isDigitChar
    | _ => false
  (ds.length = 1 || ds.length = 2 || ds = ['1', '0', '0']) && fracAny

/-- Consume one saturation/lightness percentage including its `%`. -/
def parseHslPercent (l : List Char) : Option (List Char) :=
  if pctTok (l.takeWhile isNumDotChar) then
    expectChar '%' (l.dropWhile isNumDotChar)
  else none

/-- The hue and two percentages of `HSL_COLOR_PATTERN`. -/
def hslComponents (l : List Char) : Option (List Char) :=
  (parseHue (skipWs l)).bind fun l =>
  (expectChar ',' (skipWs l)).bind fun l =>
  (parseHslPercent (skipWs l)).bind fun l =>
  (expectChar ',' (skipWs l)).bind fun l =>
  parseHslPercent (skipWs l)

/-- `HSL_COLOR_PATTERN`. -/
def hslColorTest (s : String) : Bool :=
  match (hslTag s.data).bind hslComponents with
  | some l => closeTail l
  | none => false

/-- `sanitizeColor` from `src/utils/sanitize.ts` (the revision with the
three allow-list grammars): falsy input (absent or empty) returns the
fallback, trimmed input longer than 50 characters returns the fallback,
input whose trimmed form matches one of the three patterns returns the
trimmed form, anything else returns the fallback. -/
def sanitizeColor (input : Option String) (fallback : String) : String :=
  match input with
  | none => fallback
  | some s =>
      if s = "" then fallback
      else
        let trimmed := jsTrim s
        if trimmed.length > 50 then fallback
        else if hexColorTest trimmed || rgbColorTest trimmed ||
            hslColorTest trimmed then trimmed
        else fallback

/-! ### Character alphabets of the three patterns -/

/-- Characters that can occur in a string accepted by
`HEX_COLOR_PATTERN`. -/
def hexAllowedChar (c : Char) : Bool := c = '#' || isHexDigitChar c

/-- Characters that can occur in a string accepted by
`RGB_COLOR_PATTERN`. -/
def rgbAllowedChar (c : Char) : Bool :=
  c = 'r' || c = 'g' || c = 'b' || c = 'a' || c = '(' || c = ')' ||
  c = ',' || c = '.' || isDigitChar c || isJsWhitespace c

/-- Characters that can occur in a string accepted by
`HSL_COLOR_PATTERN`. -/
def hslAllowedChar (c : Char) : Bool :=
  c = 'h' || c = 's' || c = 'l' || c = 'a' || c = '(' || c = ')' ||
  c = ',' || c = '.' || c = '%' || isDigitChar c || isJsWhitespace c

theorem mem_or_mem_dropWhile {p : Char → Bool} {l : List Char} :
    ∀ c ∈ l, p c = true ∨ c ∈ l.dropWhile p := by
  intro c hc
  by_cases h : c ∈ l.dropWhile p
  · exact Or.inr h
  · left
    rw [← List.takeWhile_append_dropWhile (p := p) (l := l)] at hc
    rcases List.mem_append.mp hc with h1 | h2
    · exact List.mem_takeWhile_imp h1
    · exact absurd h2 h

theorem mem_dropWhile_of_neg {p : Char → Bool} {c : Char}
    (hc : p c = false) : ∀ {l : List Char}, c ∈ l → c ∈ l.dropWhile p := by
  intro l
  induction l with
  | nil => intro h; exact absurd h (List.not_mem_nil c)
  | cons a as ih =>
      intro h
      rw [List.dropWhile_cons]
      by_cases hpa : p a = true
      · rw [if_pos hpa]
        rcases List.mem_cons.mp h with rfl | h'
        · rw [hc] at hpa; exact absurd hpa (by decide)
        · exact ih h'
      · rw [if_neg hpa]; exact h

theorem mem_jsTrim {c : Char} {s : String} (hws : isJsWhitespace c = false)
    (h : c ∈ s.data) : c ∈ (jsTrim s).data := by
  show c ∈ ((s.data.dropWhile isJsWhitespace).reverse.dropWhile
    isJsWhitespace).reverse
  rw [List.mem_reverse]
  exact mem_dropWhile_of_neg hws
    (List.mem_reverse.mpr (mem_dropWhile_of_neg hws h))

theorem skipWs_chars (l : List Char) :
    ∀ c ∈ l, isJsWhitespace c = true ∨ c ∈ skipWs l :=
  mem_or_mem_dropWhile

theorem expectChar_eq {ch : Char} {l r : List Char}
    (h : expectChar ch l = some r) : l = ch :: r := by
  unfold expectChar at h
  split at h
  · next d rest =>
      split at h
      · next hd => cases h; rw [hd]
      · exact absurd h (by simp)
  · exact absurd h (by simp)

theorem parseRgbNumber_chars {l r : List Char}
    (h : parseRgbNumber l = some r) :
    ∀ c ∈ l, isDigitChar c = true ∨ c ∈ r := by
  unfold parseRgbNumber at h
  split at h
  · cases h; exact mem_or_mem_dropWhile
  · exact absurd h (by simp)

theorem parseAlphaValue_chars {l r : List Char}
    (h : parseAlphaValue l = some r) :
    ∀ c ∈ l, isNumDotChar c = true ∨ c ∈ r := by
  unfold parseAlphaValue at h
  split at h
  · cases h; exact mem_or_mem_dropWhile
  · exact absurd h (by simp)

theorem parseHue_chars {l r : List Char} (h : parseHue l = some r) :
    ∀ c ∈ l, isNumDotChar c = true ∨ c ∈ r := by
  unfold parseHue at h
  split at h
  · cases h; exact mem_or_mem_dropWhile
  · exact absurd h (by simp)

theorem parseHslPercent_chars {l r : List Char}
    (h : parseHslPercent l = some r) :
    ∀ c ∈ l, (isNumDotChar c || c = '%') = true ∨ c ∈ r := by
  unfold parseHslPercent at h
  split at h
  · next =>
      have hrest := expectChar_eq h
      intro c hc
      rcases mem_or_mem_dropWhile (p := isNumDotChar) c hc with hd | hc'
      · left; simp [hd]
      · rw [hrest] at hc'
        rcases List.mem_cons.mp hc' with rfl | hc''
        · left; simp
        · exact Or.inr hc''
  · exact absurd h (by simp)

theorem closeTail_chars {l : List Char} (h : closeTail l = true) :
    ∀ c ∈ l,
      (isJsWhitespace c || c = ')' || c = ',' || isNumDotChar c) = true := by
  intro c hc
  unfold closeTail at h
  split at h
  · next rest heq =>
      have hrest : rest = [] := by simpa using h
      rcases skipWs_chars l c hc with hw | hmem
      · simp [hw]
      · rw [heq, hrest] at hmem
        rcases List.mem_cons.mp hmem with rfl | hmem'
        · simp
        · exact absurd hmem' (List.not_mem_nil c)
  · next rest heq =>
      split at h
      · next r halpha =>
          split at h
          · next rest2 heq2 =>
              have hrest2 : rest2 = [] := by simpa using h
              rcases skipWs_chars l c hc with hw | hmem
              · simp [hw]
              rw [heq] at hmem
              rcases List.mem_cons.mp hmem with rfl | hmem'
              · simp
              rcases skipWs_chars rest c hmem' with hw | hmem''
              · simp [hw]
              rcases parseAlphaValue_chars halpha c hmem'' with hd | hmem3
              · simp [hd]
              rcases skipWs_chars r c hmem3 with hw | hmem4
              · simp [hw]
              rw [heq2, hrest2] at hmem4
              rcases List.mem_cons.mp hmem4 with rfl | hmem5
              · simp
              · exact absurd hmem5 (List.not_mem_nil c)
          · exact absurd h (by decide)
      · exact absurd h (by decide)
  · exact absurd h (by decide)

theorem rgbTag_eq {l r : List Char} (h : rgbTag l = some r) :
    l = 'r' :: 'g' :: 'b' :: 'a' :: '(' :: r ∨
    l = 'r' :: 'g' :: 'b' :: '(' :: r := by
  unfold rgbTag at h
  split at h
  · next rest => cases h; exact Or.inl rfl
  · next rest => cases h; exact Or.inr rfl
  · exact absurd h (by simp)

theorem hslTag_eq {l r : List Char} (h : hslTag l = some r) :
    l = 'h' :: 's' :: 'l' :: 'a' :: '(' :: r ∨
    l = 'h' :: 's' :: 'l' :: '(' :: r := by
  unfold hslTag at h
  split at h
  · next rest => cases h; exact Or.inl rfl
  · next rest => cases h; exact Or.inr rfl
  · exact absurd h (by simp)

theorem hexColorTest_chars {s : String} (h : hexColorTest s = true) :
    ∀ c ∈ s.data, hexAllowedChar c = true := by
  unfold hexColorTest at h
  split at h
  · next rest heq =>
      intro c hc
      rw [heq] at hc
      rcases List.mem_cons.mp hc with rfl | hc'
      · decide
      · have hall : rest.all isHexDigitChar = true := by
          simp only [Bool.and_eq_true] at h; exact h.2
        have := List.all_eq_true.mp hall c hc'
        simp [hexAllowedChar, this]
  · exact absurd h (by decide)

theorem rgbChannels_chars {l r : List Char} (h : rgbChannels l = some r) :
    ∀ c ∈ l, rgbAllowedChar c = true ∨ c ∈ r := by
  unfold rgbChannels at h
  obtain ⟨l1, h1, h⟩ := Option.bind_eq_some.mp h
  obtain ⟨l2, h2, h⟩ := Option.bind_eq_some.mp h
  obtain ⟨l3, h3, h⟩ := Option.bind_eq_some.mp h
  obtain ⟨l4, h4, h5⟩ := Option.bind_eq_some.mp h
  intro c hc
  rcases skipWs_chars l c hc with hw | hc
  · exact Or.inl (by simp [rgbAllowedChar, hw])
  rcases parseRgbNumber_chars h1 c hc with hd | hc
  · exact Or.inl (by simp [rgbAllowedChar, hd])
  rcases skipWs_chars l1 c hc with hw | hc
  · exact Or.inl (by simp [rgbAllowedChar, hw])
  rw [expectChar_eq h2] at hc
  rcases List.mem_cons.mp hc with rfl | hc
  · exact Or.inl (by decide)
  rcases skipWs_chars l2 c hc with hw | hc
  · exact Or.inl (by simp [rgbAllowedChar, hw])
  rcases parseRgbNumber_chars h3 c hc with hd | hc
  · exact Or.inl (by simp [rgbAllowedChar, hd])
  rcases skipWs_chars l3 c hc with hw | hc
  · exact Or.inl (by simp [rgbAllowedChar, hw])
  rw [expectChar_eq h4] at hc
  rcases List.mem_cons.mp hc with rfl | hc
  · exact Or.inl (by decide)
  rcases skipWs_chars l4 c hc with hw | hc
  · exact Or.inl (by simp [rgbAllowedChar, hw])
  rcases parseRgbNumber_chars h5 c hc with hd | hc
  · exact Or.inl (by simp [rgbAllowedChar, hd])
  · exact Or.inr hc

theorem hslComponents_chars {l r : List Char}
    (h : hslComponents l = some r) :
    ∀ c ∈ l, hslAllowedChar c = true ∨ c ∈ r := by
  unfold hslComponents at h
  obtain ⟨l1, h1, h⟩ := Option.bind_eq_some.mp h
  obtain ⟨l2, h2, h⟩ := Option.bind_eq_some.mp h
  obtain ⟨l3, h3, h⟩ := Option.bind_eq_some.mp h
  obtain ⟨l4, h4, h5⟩ := Option.bind_eq_some.mp h
  intro c hc
  rcases skipWs_chars l c hc with hw | hc
  · exact Or.inl (by simp [hslAllowedChar, hw])
  rcases parseHue_chars h1 c hc with hd | hc
  · exact Or.inl (by simp [hslAllowedChar, isNumDotChar] at hd ⊢; tauto)
  rcases skipWs_chars l1 c hc with hw | hc
  · exact Or.inl (by simp [hslAllowedChar, hw])
  rw [expectChar_eq h2] at hc
  rcases List.mem_cons.mp hc with rfl | hc
  · exact Or.inl (by decide)
  rcases skipWs_chars l2 c hc with hw | hc
  · exact Or.inl (by simp [hslAllowedChar, hw])
  rcases parseHslPercent_chars h3 c hc with hd | hc
  · exact Or.inl (by simp [hslAllowedChar, isNumDotChar] at hd ⊢; tauto)
  rcases skipWs_chars l3 c hc with hw | hc
  · exact Or.inl (by simp [hslAllowedChar, hw])
  rw [expectChar_eq h4] at hc
  rcases List.mem_cons.mp hc with rfl | hc
  · exact Or.inl (by decide)
  rcases skipWs_chars l4 c hc with hw | hc
  · exact Or.inl (by simp [hslAllowedChar, hw])
  rcases parseHslPercent_chars h5 c hc with hd | hc
  · exact Or.inl (by simp [hslAllowedChar, isNumDotChar] at hd ⊢; tauto)
  · exact Or.inr hc

theorem rgbColorTest_chars {s : String} (h : rgbColorTest s = true) :
    ∀ c ∈ s.data, rgbAllowedChar c = true := by
  unfold rgbColorTest at h
  split at h
  · next l heq =>
      obtain ⟨l0, htag, hch⟩ := Option.bind_eq_some.mp heq
      intro c hc
      have hmemtag : c ∈ ['r', 'g', 'b', 'a', '('] ∨ c ∈ l0 := by
        rcases rgbTag_eq htag with h5 | h4
        · rw [h5] at hc; simp only [List.mem_cons] at hc ⊢; tauto
        · rw [h4] at hc; simp only [List.mem_cons] at hc ⊢; tauto
      rcases hmemtag with htc | hc0
      · simp only [List.mem_cons, List.not_mem_nil, or_false] at htc
        rcases htc with rfl | rfl | rfl | rfl | rfl <;> decide
      rcases rgbChannels_chars hch c hc0 with hall | hcl
      · exact hall
      · have := closeTail_chars h c hcl
        simp only [rgbAllowedChar, isNumDotChar, Bool.or_eq_true,
          decide_eq_true_eq] at this ⊢
        tauto
  · exact absurd h (by decide)

theorem hslColorTest_chars {s : String} (h : hslColorTest s = true) :
    ∀ c ∈ s.data, hslAllowedChar c = true := by
  unfold hslColorTest at h
  split at h
  · next l heq =>
      obtain ⟨l0, htag, hch⟩ := Option.bind_eq_some.mp heq
      intro c hc
      have hmemtag : c ∈ ['h', 's', 'l', 'a', '('] ∨ c ∈ l0 := by
        rcases hslTag_eq htag with h5 | h4
        · rw [h5] at hc; simp only [List.mem_cons] at hc ⊢; tauto
        · rw [h4] at hc; simp only [List.mem_cons] at hc ⊢; tauto
      rcases hmemtag with htc | hc0
      · simp only [List.mem_cons, List.not_mem_nil, or_false] at htc
        rcases htc with rfl | rfl | rfl | rfl | rfl <;> decide
      rcases hslComponents_chars hch c hc0 with hall | hcl
      · exact hall
      · have := closeTail_chars h c hcl
        simp only [hslAllowedChar, isNumDotChar, Bool.or_eq_true,
          decide_eq_true_eq] at this ⊢
        tauto
  · exact absurd h (by decide)

/-- Any input whose character set escapes all three pattern alphabets
(and is not whitespace, hence survives trimming) is rejected to the
fallback. -/
theorem sanitizeColor_reject_char {s fallback : String} {c0 : Char}
    (hmem : c0 ∈ s.data) (hws : isJsWhitespace c0 = false)
    (hhex : hexAllowedChar c0 = false) (hrgb : rgbAllowedChar c0 = false)
    (hhsl : hslAllowedChar c0 = false) :
    sanitizeColor (some s) fallback = fallback := by
  have hs : s ≠ "" := by
    intro hs; rw [hs] at hmem; exact absurd hmem (List.not_mem_nil c0)
  have htrim : c0 ∈ (jsTrim s).data := mem_jsTrim hws hmem
  show (if s = "" then fallback else _) = fallback
  rw [if_neg hs]
  by_cases hlen : (jsTrim s).length > 50
  · rw [if_pos hlen]
  · rw [if_neg hlen]
    have hhex' : hexColorTest (jsTrim s) = false := by
      cases hh : hexColorTest (jsTrim s)
      · rfl
      · rw [hexColorTest_chars hh c0 htrim] at hhex
        exact absurd hhex (by decide)
    have hrgb' : rgbColorTest (jsTrim s) = false := by
      cases hh : rgbColorTest (jsTrim s)
      · rfl
      · rw [rgbColorTest_chars hh c0 htrim] at hrgb
        exact absurd hrgb (by decide)
    have hhsl' : hslColorTest (jsTrim s) = false := by
      cases hh : hslColorTest (jsTrim s)
      · rfl
      · rw [hslColorTest_chars hh c0 htrim] at hhsl
        exact absurd hhsl (by decide)
    rw [if_neg (by simp [hhex', hrgb', hhsl'])]

/-- C1 counterexample: the claim asserts that any input containing a
newline yields the fallback, but the `\s*` gaps of `RGB_COLOR_PATTERN`
match newlines, so "rgb(\n0, 0, 0)" is accepted and returned unchanged
instead of the fallback. -/
theorem sanitizeColor_newline_counterexample :
    '\n' ∈ ("rgb(\n0, 0, 0)" : String).data ∧
    sanitizeColor (some "rgb(\n0, 0, 0)") "#fff" = "rgb(\n0, 0, 0)" ∧
    ("rgb(\n0, 0, 0)" : String) ≠ "#fff" :=
  ⟨by decide, by decide, by decide⟩

/-- C1 (amended): absent/empty input and trimmed input longer than 50
characters yield the fallback; a trimmed input accepted by one of the
three allow-list grammars is returned trimmed; any input not accepted
yields the fallback, and in particular any input containing ';',
'url(' or 'expression(' always yields the fallback (inputs containing
newlines can however be accepted, since the grammars' whitespace gaps
match newlines). -/
theorem sanitizeColor_spec :
    (∀ fallback, sanitizeColor none fallback = fallback ∧
      sanitizeColor (some "") fallback = fallback) ∧
    (∀ s fallback, 50 < (jsTrim s).length →
      sanitizeColor (some s) fallback = fallback) ∧
    (∀ s fallback, s ≠ "" → (jsTrim s).length ≤ 50 →
      (hexColorTest (jsTrim s) || rgbColorTest (jsTrim s) ||
        hslColorTest (jsTrim s)) = true →
      sanitizeColor (some s) fallback = jsTrim s) ∧
    (∀ s fallback,
      (hexColorTest (jsTrim s) || rgbColorTest (jsTrim s) ||
        hslColorTest (jsTrim s)) = false →
      sanitizeColor (some s) fallback = fallback) ∧
    (∀ s fallback, ';' ∈ s.data →
      sanitizeColor (some s) fallback = fallback) ∧
    (∀ s fallback, ("url(" : String).data <:+: s.data →
      sanitizeColor (some s) fallback = fallback) ∧
    (∀ s fallback, ("expression(" : String).data <:+: s.data →
      sanitizeColor (some s) fallback = fallback) := by
  refine ⟨?_, ?_, ?_, ?_, ?_, ?_, ?_⟩
  · intro fallback
    exact ⟨rfl, by simp [sanitizeColor]⟩
  · intro s fallback hlen
    by_cases hs : s = ""
    · rw [hs] at hlen; exact absurd hlen (by decide)
    · show (if s = "" then fallback else _) = fallback
      rw [if_neg hs, if_pos hlen]
  · intro s fallback hs hlen hmatch
    show (if s = "" then fallback else _) = jsTrim s
    rw [if_neg hs, if_neg (Nat.not_lt.mpr hlen), if_pos hmatch]
  · intro s fallback hmatch
    by_cases hs : s = ""
    · rw [hs]; simp [sanitizeColor]
    · show (if s = "" then fallback else _) = fallback
      rw [if_neg hs]
      by_cases hlen : 50 < (jsTrim s).length
      · rw [if_pos hlen]
      · rw [if_neg hlen, if_neg (by simp [hmatch])]
  · intro s fallback hmem
    exact sanitizeColor_reject_char hmem (by decide) (by decide) (by decide)
      (by decide)
  · intro s fallback hinf
    have hmem : 'u' ∈ s.data := hinf.subset (by decide)
    exact sanitizeColor_reject_char hmem (by decide) (by decide) (by decide)
      (by decide)
  · intro s fallback hinf
    have hmem : 'x' ∈ s.data := hinf.subset (by decide)
    exact sanitizeColor_reject_char hmem (by decide) (by decide) (by decide)
      (by decide)

/-- C1 witness: the amended sanitizer contract evaluated at concrete
inputs. -/
theorem sanitizeColor_spec_witness :
    sanitizeColor (some "  #fff  ") "#000" = jsTrim "  #fff  " ∧
    sanitizeColor (some "red; background:url(x)") "#000" = "#000" ∧
    sanitizeColor (some "rgb(999,0,0)") "#000" = "#000" ∧
    sanitizeColor (some (String.mk (List.replicate 51 'f'))) "#000" =
      "#000" :=
  ⟨sanitizeColor_spec.2.2.1 "  #fff  " "#000" (by decide) (by decide)
      (by decide),
   sanitizeColor_spec.2.2.2.2.1 "red; background:url(x)" "#000" (by decide),
   sanitizeColor_spec.2.2.2.1 "rgb(999,0,0)" "#000" (by decide),
   sanitizeColor_spec.2.1 (String.mk (List.replicate 51 'f')) "#000"
      (by decide)⟩

/-! ### Data model of the webview renderer -/

/-- A JS `Date`, represented by the string its `toLocaleString()`
renders to (locale-dependent, opaque to this core). -/
structure JSDate where
  localeString : String

/-- Modelled from the spec: token counts come from the external
acquisition/parsing collaborator (`ratelimitParser`, not part of this
core); `formatTokenUsage` is its pure formatting collaborator whose
output is treated as pre-safe text, so a count is represented by the
formatted string it yields. -/
structure TokenUsage where
  formatted : String

/-- Modelled from the spec: the external `formatTokenUsage(usage)`
collaborator, pure, output treated as pre-safe text. -/
def formatTokenUsage (t : TokenUsage) : String := t.formatted

/-- One usage window of a `RateLimitData` snapshot. -/
structure UsageWindow where
  time_percent : JSNum
  used_percent : JSNum
  reset_time : JSDate
  outdated : Bool

/-- The `RateLimitData` snapshot consumed by the renderer. -/
structure RateLimitData where
  primary : Option UsageWindow
  secondary : Option UsageWindow
  total_usage : TokenUsage
  last_usage : TokenUsage
  current_time : JSDate

/-- The `FetchResult` contract of `getRateLimitData()`. -/
structure FetchResult where
  found : Bool
  data : Option RateLimitData
  error : Option String

/-- The `codexRatelimit` configuration section as read at each render:
each key either has a configured value or is absent (the `config.get`
default then applies). -/
structure RatelimitConfig where
  warningColor : Option String
  criticalColor : Option String
  warningThreshold : Option JSNum
  criticalThreshold : Option JSNum

/-- The webview environment: `webview.cspSource` and the
`asWebviewUri(...)` stylesheet location, opaque host-supplied strings. -/
structure WebviewEnv where
  cspSource : String
  styleUri : String

/-! ### Nonce generation -/

/-- Lowercase hexadecimal digit of a value below 16. -/
def hexDigitOf (n : ℕ) : Char :=
  if n < 10 then Char.ofNat (48 + n) else Char.ofNat (87 + n)

/-- Two-character lowercase hex rendering of one byte. -/
def byteToHex (b : ℕ) : String :=
  ⟨[hexDigitOf (b / 16 % 16), hexDigitOf (b % 16)]⟩

/-- `RateLimitWebView._generateNonce`:
`crypto.randomBytes(16).toString('hex')`, with the 16 random bytes
passed explicitly (randomness is environmental). -/
def generateNonce : List ℕ → String
  | [] => ""
  | b :: bs => byteToHex b ++ generateNonce bs

/-- Lowercase hexadecimal characters, the alphabet of every generated
nonce. -/
def isLowerHexChar (c : Char) : Bool :=
  isDigitChar c || ('a' ≤ c && c ≤ 'f')

/-! ### Number formatting at the interpolation points -/

/-- JS number-to-string as used by the `${timePercent}` width
interpolations; the renderer only reaches it with clamped finite
values, and integral values print with no decimal point. -/
def jsNumToString : JSNum → String
  | .nan => "NaN"
  | .posInf => "Infinity"
  | .negInf => "-Infinity"
  | .num q => if q.den = 1 then toString q.num else toString q

/-- JS `Number.prototype.toFixed(1)` on the model: round to one decimal
digit, ties away from zero upward, rendered as `int.frac`. -/
def toFixed1 : JSNum → String
  | .nan => "NaN"
  | .posInf => "Infinity"
  | .negInf => "-Infinity"
  | .num q =>
      let n : ℤ := ⌊q * 10 + 1 / 2⌋
      if n < 0 then
        "-" ++ toString ((-n) / 10) ++ "." ++ toString ((-n) % 10)
      else toString (n / 10) ++ "." ++ toString (n % 10)

/-! ### The renderer (`_getHtml`, `_renderProgressSection`,
`_getErrorHtml`) -/

/-- The `csp` array join of `_getHtml`'s four CSP directives,
`[...].join(' ')`. -/
def joinSpace : List String → String
  | [] => ""
  | [x] => x
  | x :: xs => x ++ " " ++ joinSpace xs

/-- The content-security-policy string built in `_getHtml`. -/
def getHtmlCsp (cspSource nonce : String) : String :=
  joinSpace
    ["default-src 'none';",
     "img-src " ++ cspSource ++ ";",
     "style-src " ++ cspSource ++ " 'nonce-" ++ nonce ++ "';",
     "script-src 'nonce-" ++ nonce ++ "';"]

/-- The content-security-policy string built in `_getErrorHtml`
(textually the same construction as in `_getHtml`). -/
def getErrorHtmlCsp (cspSource nonce : String) : String :=
  joinSpace
    ["default-src 'none';",
     "img-src " ++ cspSource ++ ";",
     "style-src " ++ cspSource ++ " 'nonce-" ++ nonce ++ "';",
     "script-src 'nonce-" ++ nonce ++ "';"]

/-- Per-window value `timePercent`: 0 when outdated, else the clamped
`time_percent`. -/
def windowTimePercent (w : UsageWindow) : JSNum :=
  if w.outdated then .num 0 else clampPercentage w.time_percent

/-- Per-window value `usagePercent`: 0 when outdated, else the clamped
`used_percent`. -/
def windowUsagePercent (w : UsageWindow) : JSNum :=
  if w.outdated then .num 0 else clampPercentage w.used_percent

/-- Per-window display text `timeText`: "N/A" when outdated, else the
clamped percentage to one decimal with a `%` suffix. -/
def windowTimeText (w : UsageWindow) : String :=
  if w.outdated then "N/A" else toFixed1 (windowTimePercent w) ++ "%"

/-- Per-window display text `usageText`: "N/A" when outdated, else the
clamped percentage to one decimal with a `%` suffix. -/
def windowUsageText (w : UsageWindow) : String :=
  if w.outdated then "N/A" else toFixed1 (windowUsagePercent w) ++ "%"

/-- The pushed width rule
`#<id>-time-fill { width: <percent>%; }`. -/
def timeFillRule (idp : String) (p : JSNum) : String :=
  "#" ++ idp ++ "-time-fill \x7b width: " ++ jsNumToString p ++ "%; \x7d"

/-- The pushed width rule
`#<id>-usage-fill { width: <percent>%; }`. -/
def usageFillRule (idp : String) (p : JSNum) : String :=
  "#" ++ idp ++ "-usage-fill \x7b width: " ++ jsNumToString p ++ "%; \x7d"

/-- Literal chunk of the per-window section template up to the time
percentage text. -/
def sectionP1 (header label1 timeCls idp : String) : String :=
  "\n        <div class=\"progress-section\">\n          <div class=\"progress-header\">" ++
  header ++
  "</div>\n          <div class=\"progress-bar-container\">\n            <div class=\"progress-bar\">\n              <div class=\"progress-label\">" ++
  label1 ++
  "</div>\n              <div class=\"progress-track\">\n                <div class=\"progress-fill time " ++
  timeCls ++ "\" id=\"" ++ idp ++
  "-time-fill\"></div>\n              </div>\n              <div class=\"progress-percentage\">"

/-- Literal chunk of the per-window section template between the time
percentage text and the usage percentage text. -/
def sectionP2 (resetTimeStr outdatedStr label2 usageCls idp : String) :
    String :=
  "</div>\n            </div>\n            <div class=\"progress-details\">Reset: " ++
  resetTimeStr ++ outdatedStr ++
  "</div>\n\n            <div class=\"progress-bar\">\n              <div class=\"progress-label\">" ++
  label2 ++
  "</div>\n              <div class=\"progress-track\">\n                <div class=\"progress-fill usage " ++
  usageCls ++ "\" id=\"" ++ idp ++
  "-usage-fill\"></div>\n              </div>\n              <div class=\"progress-percentage\">"

/-- Closing literal chunk of the per-window section template. -/
def sectionP3 : String :=
  "</div>\n            </div>\n          </div>\n        </div>\n      "

/-- One window block of `_renderProgressSection` (the primary and
secondary blocks share this template, differing in header, labels and
element-id stem). -/
def renderWindowSection (header label1 label2 idp : String)
    (w : UsageWindow) (warnT critT : JSNum) : String :=
  sectionP1 header label1
      (getProgressClass (windowTimePercent w) w.outdated) idp ++
  windowTimeText w ++
  sectionP2 w.reset_time.localeString
      (if w.outdated then " [OUTDATED]" else "") label2
      (getUsageClass (windowUsagePercent w) w.outdated warnT critT) idp ++
  windowUsageText w ++
  sectionP3

/-- `_renderProgressSection`: html for each present window plus the
width rules pushed into the style block, primary first. -/
def renderProgressSection (data : RateLimitData) (cfg : RatelimitConfig) :
    String × List String :=
  let warnT := cfg.warningThreshold.getD (.num 70)
  let critT := cfg.criticalThreshold.getD (.num 90)
  let pr :=
    match data.primary with
    | some w =>
        (renderWindowSection "🚀 5-Hour Session" "SESSION TIME" "5H USAGE"
          "primary" w warnT critT,
         [timeFillRule "primary" (windowTimePercent w),
          usageFillRule "primary" (windowUsagePercent w)])
    | none => ("", [])
  let se :=
    match data.secondary with
    | some w =>
        (renderWindowSection "📅 Weekly Limit" "WEEKLY TIME" "WEEKLY USAGE"
          "secondary" w warnT critT,
         [timeFillRule "secondary" (windowTimePercent w),
          usageFillRule "secondary" (windowUsagePercent w)])
    | none => ("", [])
  (pr.1 ++ se.1, pr.2 ++ se.2)

/-- The document head of `_getHtml` up to the CSP value. -/
def htmlDocHead : String :=
  "<!DOCTYPE html>\n    <html lang=\"en\">\n    <head>\n      <meta charset=\"UTF-8\">\n      <meta name=\"viewport\" content=\"width=device-width, initial-scale=1.0\">\n      <meta http-equiv=\"Content-Security-Policy\" content=\""

/-- The remainder of the `_getHtml` document after the CSP value. -/
def getHtmlAfterCsp (env : WebviewEnv) (nonce : String)
    (cfg : RatelimitConfig) (data : RateLimitData) : String :=
  let warningColor :=
    sanitizeColor (some (cfg.warningColor.getD "#f3d898")) "#f3d898"
  let criticalColor :=
    sanitizeColor (some (cfg.criticalColor.getD "#eca7a7")) "#eca7a7"
  let res := renderProgressSection data cfg
  "\">\n      <title>Codex Rate Limit Details</title>\n      <link href=\"" ++
  env.styleUri ++
  "\" rel=\"stylesheet\">\n      <style nonce=\"" ++ nonce ++
  "\">\n        .progress-fill.usage.medium \x7b\n          background-color: " ++
  warningColor ++
  " !important;\n        \x7d\n        .progress-fill.usage.high \x7b\n          background-color: " ++
  criticalColor ++
  " !important;\n        \x7d\n        " ++
  String.intercalate "\n" res.2 ++
  "\n      </style>\n    </head>\n    <body>\n      <div class=\"container\">\n        <div class=\"header\">\n          CODEX RATELIMIT - LIVE USAGE MONITOR\n        </div>\n\n        " ++
  res.1 ++
  "\n\n        <div class=\"token-usage\">\n          <h3>📊 Token Usage Summary</h3>\n          <div class=\"token-line\"><strong>Total:</strong> " ++
  formatTokenUsage data.total_usage ++
  "</div>\n          <div class=\"token-line\"><strong>Last:</strong> " ++
  formatTokenUsage data.last_usage ++
  "</div>\n        </div>\n\n        <div class=\"refresh-info\">\n          Last updated: " ++
  data.current_time.localeString ++
  "<br>\n          <button id=\"refreshButton\" class=\"action-button\">\n            🔄 Refresh\n          </button>\n        </div>\n      </div>\n\n      <script nonce=\"" ++
  nonce ++
  "\">\n        const vscode = acquireVsCodeApi();\n\n        const refreshButton = document.getElementById('refreshButton');\n        refreshButton?.addEventListener('click', () => \x7b\n          vscode.postMessage(\x7b command: 'refresh' \x7d);\n        \x7d);\n      </script>\n    </body>\n    </html>"

/-- `RateLimitWebView._getHtml`: the success-path document. -/
def getHtml (env : WebviewEnv) (nonce : String) (cfg : RatelimitConfig)
    (data : RateLimitData) : String :=
  htmlDocHead ++ getHtmlCsp env.cspSource nonce ++
  getHtmlAfterCsp env nonce cfg data

/-- The document head of `_getErrorHtml` up to the CSP value (same
text as the success path's head). -/
def errorHtmlHead : String :=
  "<!DOCTYPE html>\n    <html lang=\"en\">\n    <head>\n      <meta charset=\"UTF-8\">\n      <meta name=\"viewport\" content=\"width=device-width, initial-scale=1.0\">\n      <meta http-equiv=\"Content-Security-Policy\" content=\""

/-- The remainder of the `_getErrorHtml` document after the CSP value;
the message is HTML-escaped before interpolation. -/
def getErrorHtmlAfterCsp (env : WebviewEnv) (nonce errorMessage : String) :
    String :=
  let safeErrorMessage := escapeHtml errorMessage
  "\">\n      <title>Codex Rate Limit Details - Error</title>\n      <link href=\"" ++
  env.styleUri ++
  "\" rel=\"stylesheet\">\n    </head>\n    <body>\n      <div class=\"container\">\n        <div class=\"error-state\">\n          <h2>⚠️ Error</h2>\n          <p>" ++
  safeErrorMessage ++
  "</p>\n          <button id=\"errorRefreshButton\" class=\"action-button\">\n            🔄 Try Again\n          </button>\n        </div>\n      </div>\n\n      <script nonce=\"" ++
  nonce ++
  "\">\n        const vscode = acquireVsCodeApi();\n\n        const errorRefreshButton = document.getElementById('errorRefreshButton');\n        errorRefreshButton?.addEventListener('click', () => \x7b\n          vscode.postMessage(\x7b command: 'refresh' \x7d);\n        \x7d);\n      </script>\n    </body>\n    </html>"

/-- `RateLimitWebView._getErrorHtml`: the error-path document. -/
def getErrorHtml (env : WebviewEnv) (nonce errorMessage : String) :
    String :=
  errorHtmlHead ++ getErrorHtmlCsp env.cspSource nonce ++
  getErrorHtmlAfterCsp env nonce errorMessage

/-! ### The update cycle and the singleton lifecycle -/

/-- Outcome of awaiting `getRateLimitData()`: a `FetchResult`, or an
exception (`some m` an `Error` with message `m`, `none` a non-`Error`
throw). -/
inductive FetchOutcome where
  | ok : FetchResult → FetchOutcome
  | thrown : Option String → FetchOutcome

/-- The caught message of `_update`'s catch clause:
`error instanceof Error ? error.message : 'Unknown error'`. -/
def caughtMessage : Option String → String
  | some m => m
  | none => "Unknown error"

/-- JS `||` on an optional string against a default: the default is
taken when the value is absent or empty (falsy). -/
def jsOrElse (e : Option String) (d : String) : String :=
  match e with
  | some s => if s = "" then d else s
  | none => d

/-- The body of `_update`: given the fetch outcome, the html assigned
to the webview and the log lines emitted.  The function is total: every
outcome, including a thrown exception, produces a render. -/
def updateRender (env : WebviewEnv) (nonce : String)
    (cfg : RatelimitConfig) (outcome : FetchOutcome) :
    String × List String :=
  match outcome with
  | .ok r =>
      if !r.found then
        (getErrorHtml env nonce
          (jsOrElse r.error "No rate limit data found"), [])
      else
        match r.data with
        | none => (getErrorHtml env nonce "Rate limit data is undefined", [])
        | some d =>
            (getHtml env nonce cfg d, ["WebView updated successfully"])
  | .thrown e =>
      let errorMessage := caughtMessage e
      (getErrorHtml env nonce errorMessage,
       ["Error updating WebView: " ++ errorMessage])

/-- One live `RateLimitWebView` instance: its per-instance nonce, its
disposal-handle registry and the html last assigned to its webview. -/
structure WebViewInstance where
  nonce : String
  disposables : List String
  html : String
deriving DecidableEq

/-- The two subscriptions the constructor registers into the fresh
`_disposables` array. -/
def initialDisposables : List String :=
  ["onDidDispose", "onDidReceiveMessage"]

/-- The constructor: a fresh instance with the given fresh nonce, the
fresh disposal registry, and no html assigned yet. -/
def mkInstance (nonce : String) : WebViewInstance :=
  { nonce := nonce, disposables := initialDisposables, html := "" }

/-- The process-wide manager state: the `currentPanel` singleton slot,
plus a ghost count of constructor runs used to state that no second
instance is ever constructed. -/
structure ManagerState where
  currentPanel : Option WebViewInstance
  constructedCount : ℕ
deriving DecidableEq

/-- What a `createOrShow` call did. -/
inductive ShowAction where
  | revealExistingAndUpdate
  | constructNew
deriving DecidableEq

/-- `RateLimitWebView.createOrShow`: reveal and update the existing
panel when the singleton slot is occupied, otherwise construct a fresh
instance (fresh nonce, fresh registry) and store it in the slot. -/
def createOrShow (s : ManagerState) (freshNonce : String) :
    ManagerState × ShowAction :=
  match s.currentPanel with
  | some _ => (s, .revealExistingAndUpdate)
  | none =>
      ({ currentPanel := some (mkInstance freshNonce),
         constructedCount := s.constructedCount + 1 },
       .constructNew)

/-- `RateLimitWebView.dispose`: clear the singleton slot. -/
def disposeManager (s : ManagerState) : ManagerState :=
  { s with currentPanel := none }

/-- `_update` on one instance: assign the rendered html, emit the
logs. -/
def updateInstance (inst : WebViewInstance) (env : WebviewEnv)
    (cfg : RatelimitConfig) (outcome : FetchOutcome) :
    WebViewInstance × List String :=
  let res := updateRender env inst.nonce cfg outcome
  ({ inst with html := res.1 }, res.2)

/-- An update cycle seen from the manager: `_update` runs on the
instance in the slot (it is only ever invoked on a live instance) and
never touches the slot itself. -/
def managerUpdate (s : ManagerState) (env : WebviewEnv)
    (cfg : RatelimitConfig) (outcome : FetchOutcome) :
    ManagerState × List String :=
  match s.currentPanel with
  | some inst =>
      let res := updateInstance inst env cfg outcome
      ({ s with currentPanel := some res.1 }, res.2)
  | none => (s, [])

/-! ### Sample values used by the witnesses -/

/-- A sample webview environment. -/
def sampleEnv : WebviewEnv :=
  { cspSource := "vscode-resource:", styleUri := "media/styles.css" }

/-- A sample configuration with nothing configured (defaults apply). -/
def sampleCfg : RatelimitConfig :=
  { warningColor := none, criticalColor := none,
    warningThreshold := none, criticalThreshold := none }

/-- A sample outdated usage window with nonzero raw percentages. -/
def sampleOutdatedWindow : UsageWindow :=
  { time_percent := .num 42, used_percent := .num 87,
    reset_time := ⟨"1/1/2026, 12:00:00 PM"⟩, outdated := true }

/-- A sample snapshot whose two windows are both outdated. -/
def sampleData : RateLimitData :=
  { primary := some sampleOutdatedWindow,
    secondary := some sampleOutdatedWindow,
    total_usage := ⟨"1.2M tokens"⟩, last_usage := ⟨"10k tokens"⟩,
    current_time := ⟨"1/1/2026, 1:00:00 PM"⟩ }

/-- A sample live instance. -/
def sampleInstance : WebViewInstance :=
  mkInstance "0123456789abcdef0123456789abcdef"

/-! ### Lemmas about the nonce alphabet -/

theorem hexDigitOf_lowerHex {n : ℕ} (h : n < 16) :
    isLowerHexChar (hexDigitOf n) = true := by
  interval_cases n <;> decide

theorem generateNonce_chars (bytes : List ℕ) :
    ∀ c ∈ (generateNonce bytes).data, isLowerHexChar c = true := by
  induction bytes with
  | nil => intro c hc; exact absurd hc (List.not_mem_nil c)
  | cons b bs ih =>
      intro c hc
      rw [show generateNonce (b :: bs) = byteToHex b ++ generateNonce bs
        from rfl, String.data_append] at hc
      rcases List.mem_append.mp hc with h1 | h2
      · rcases List.mem_cons.mp h1 with rfl | h1'
        · exact hexDigitOf_lowerHex (Nat.mod_lt _ (by norm_num))
        · rcases List.mem_cons.mp h1' with rfl | h1''
          · exact hexDigitOf_lowerHex (Nat.mod_lt _ (by norm_num))
          · exact absurd h1'' (List.not_mem_nil c)
      · exact ih c h2

/-- C2: on both the success path and the error path the CSP string is
exactly `default-src 'none'; img-src <scheme>; style-src <scheme>
'nonce-<nonce>'; script-src 'nonce-<nonce>';` — all sources denied by
default, images only from the webview's own resource scheme, style only
from that scheme plus the per-instance nonce, script only via the
nonce — it is embedded in every rendered document, and for every
generated nonce (lowercase hex) the script-src directive cannot contain
'unsafe-inline'. -/
theorem csp_spec :
    (∀ src nonce : String,
      getHtmlCsp src nonce =
        "default-src 'none';" ++ " " ++
        (("img-src " ++ src ++ ";") ++ " " ++
         (("style-src " ++ src ++ " 'nonce-" ++ nonce ++ "';") ++ " " ++
          ("script-src 'nonce-" ++ nonce ++ "';"))) ∧
      getErrorHtmlCsp src nonce = getHtmlCsp src nonce) ∧
    (∀ (env : WebviewEnv) (nonce : String) (cfg : RatelimitConfig)
      (data : RateLimitData),
      (getHtmlCsp env.cspSource nonce).data <:+:
        (getHtml env nonce cfg data).data) ∧
    (∀ (env : WebviewEnv) (nonce msg : String),
      (getErrorHtmlCsp env.cspSource nonce).data <:+:
        (getErrorHtml env nonce msg).data) ∧
    (∀ bytes : List ℕ,
      ¬ ("unsafe-inline" : String).data <:+:
        ("script-src 'nonce-" ++ generateNonce bytes ++ "';" :
          String).data) := by
  refine ⟨fun src nonce => ⟨rfl, rfl⟩, ?_, ?_, ?_⟩
  · intro env nonce cfg data
    exact ⟨htmlDocHead.data, (getHtmlAfterCsp env nonce cfg data).data,
      by simp [getHtml, String.data_append, List.append_assoc]⟩
  · intro env nonce msg
    exact ⟨errorHtmlHead.data, (getErrorHtmlAfterCsp env nonce msg).data,
      by simp [getErrorHtml, String.data_append, List.append_assoc]⟩
  · intro bytes hinf
    have hu : 'u' ∈ ("script-src 'nonce-" ++ generateNonce bytes ++ "';" :
        String).data :=
      hinf.subset (by decide)
    rw [String.data_append, String.data_append] at hu
    rcases List.mem_append.mp hu with h1 | h2
    · rcases List.mem_append.mp h1 with h3 | h4
      · exact absurd h3 (by decide)
      · have := generateNonce_chars bytes 'u' h4
        exact absurd this (by decide)
    · exact absurd h2 (by decide)

/-- C2 witness: the CSP at a concrete scheme and nonce, and the
no-'unsafe-inline' fact at a concrete byte list. -/
theorem csp_spec_witness :
    getHtmlCsp "vscode-resource:" "aabb" =
      "default-src 'none';" ++ " " ++
      (("img-src " ++ "vscode-resource:" ++ ";") ++ " " ++
       (("style-src " ++ "vscode-resource:" ++ " 'nonce-" ++ "aabb" ++
          "';") ++ " " ++
        ("script-src 'nonce-" ++ "aabb" ++ "';"))) ∧
    ¬ ("unsafe-inline" : String).data <:+:
      ("script-src 'nonce-" ++ generateNonce [0, 255] ++ "';" :
        String).data :=
  ⟨(csp_spec.1 "vscode-resource:" "aabb").1, csp_spec.2.2.2 [0, 255]⟩

/-- C4: `_update`'s routing of a returned `FetchResult`: `found=false`
renders the error path with the collaborator message (or the default
when it is absent or empty, via `||`); `found=true` without data
renders the error path with the fixed message; `found=true` with data
is the only path that renders the success document. -/
theorem update_routing_spec :
    ∀ (env : WebviewEnv) (nonce : String) (cfg : RatelimitConfig)
      (r : FetchResult),
      (r.found = false →
        updateRender env nonce cfg (.ok r) =
          (getErrorHtml env nonce
            (jsOrElse r.error "No rate limit data found"), [])) ∧
      (∀ m, r.found = false → r.error = some m → m ≠ "" →
        (updateRender env nonce cfg (.ok r)).1 =
          getErrorHtml env nonce m) ∧
      (r.found = false → r.error = none →
        (updateRender env nonce cfg (.ok r)).1 =
          getErrorHtml env nonce "No rate limit data found") ∧
      (r.found = true → r.data = none →
        updateRender env nonce cfg (.ok r) =
          (getErrorHtml env nonce "Rate limit data is undefined", [])) ∧
      (∀ d, r.found = true → r.data = some d →
        updateRender env nonce cfg (.ok r) =
          (getHtml env nonce cfg d, ["WebView updated successfully"])) ∧
      (¬(r.found = true ∧ r.data.isSome = true) →
        ∃ m, (updateRender env nonce cfg (.ok r)).1 =
          getErrorHtml env nonce m) := by
  intro env nonce cfg r
  refine ⟨?_, ?_, ?_, ?_, ?_, ?_⟩
  · intro h; simp [updateRender, h]
  · intro m h he hm; simp [updateRender, h, jsOrElse, he, hm]
  · intro h he; simp [updateRender, h, jsOrElse, he]
  · intro h hd; simp [updateRender, h, hd]
  · intro d h hd; simp [updateRender, h, hd]
  · intro h
    cases hf : r.found
    · exact ⟨jsOrElse r.error "No rate limit data found",
        by simp [updateRender, hf]⟩
    · cases hd : r.data with
      | none => exact ⟨"Rate limit data is undefined",
          by simp [updateRender, hf, hd]⟩
      | some d => exact absurd ⟨hf, by simp [hd]⟩ h

/-- C4 witness: the routing evaluated on concrete fetch results. -/
theorem update_routing_spec_witness :
    (updateRender sampleEnv "aa" sampleCfg
      (.ok { found := false, data := none, error := none })).1 =
      getErrorHtml sampleEnv "aa" "No rate limit data found" ∧
    (updateRender sampleEnv "aa" sampleCfg
      (.ok { found := false, data := none, error := some "disk gone" })).1 =
      getErrorHtml sampleEnv "aa" "disk gone" ∧
    updateRender sampleEnv "aa" sampleCfg
      (.ok { found := true, data := none, error := none }) =
      (getErrorHtml sampleEnv "aa" "Rate limit data is undefined", []) ∧
    updateRender sampleEnv "aa" sampleCfg
      (.ok { found := true, data := some sampleData, error := none }) =
      (getHtml sampleEnv "aa" sampleCfg sampleData,
       ["WebView updated successfully"]) :=
  ⟨(update_routing_spec sampleEnv "aa" sampleCfg _).2.2.1 rfl rfl,
   (update_routing_spec sampleEnv "aa" sampleCfg _).2.1 "disk gone" rfl rfl
     (by decide),
   (update_routing_spec sampleEnv "aa" sampleCfg _).2.2.2.1 rfl rfl,
   (update_routing_spec sampleEnv "aa" sampleCfg _).2.2.2.2.1 sampleData
     rfl rfl⟩

/-- C3: when the fetch throws during `_update`, the exception is caught
(`updateRender`/`managerUpdate` are total), the error-path document
built from the caught message is assigned to the live instance, the
`Error updating WebView` log entry is emitted, and the manager keeps
its singleton slot occupied with the same instance (only its html
changed) — no transition to the absent state and no construction. -/
theorem update_exception_spec :
    ∀ (s : ManagerState) (inst : WebViewInstance) (env : WebviewEnv)
      (cfg : RatelimitConfig) (e : Option String),
      s.currentPanel = some inst →
      (managerUpdate s env cfg (.thrown e)).1.currentPanel =
        some { inst with html := getErrorHtml env inst.nonce (caughtMessage e) } ∧
      (managerUpdate s env cfg (.thrown e)).1.currentPanel.isSome = true ∧
      (managerUpdate s env cfg (.thrown e)).1.constructedCount =
        s.constructedCount ∧
      ("Error updating WebView: " ++ caughtMessage e) ∈
        (managerUpdate s env cfg (.thrown e)).2 := by
  intro s inst env cfg e h
  refine ⟨?_, ?_, ?_, ?_⟩ <;>
    simp [managerUpdate, h, updateInstance, updateRender]

/-- C3 witness: a thrown error at a concrete live manager state. -/
theorem update_exception_spec_witness :
    (managerUpdate ⟨some sampleInstance, 1⟩ sampleEnv sampleCfg
      (.thrown (some "boom"))).1.currentPanel =
      some { sampleInstance with html := getErrorHtml sampleEnv sampleInstance.nonce (caughtMessage (some "boom")) } ∧
    (managerUpdate ⟨some sampleInstance, 1⟩ sampleEnv sampleCfg
      (.thrown (some "boom"))).1.currentPanel.isSome = true ∧
    (managerUpdate ⟨some sampleInstance, 1⟩ sampleEnv sampleCfg
      (.thrown (some "boom"))).1.constructedCount = 1 ∧
    ("Error updating WebView: " ++ caughtMessage (some "boom")) ∈
      (managerUpdate ⟨some sampleInstance, 1⟩ sampleEnv sampleCfg
      (.thrown (some "boom"))).2 :=
  update_exception_spec ⟨some sampleInstance, 1⟩
    sampleInstance sampleEnv sampleCfg (some "boom") rfl

/-- C9: `createOrShow` on an occupied slot reveals and updates the
existing instance without constructing (state unchanged); on an empty
slot it constructs exactly one fresh instance (fresh nonce, fresh
disposal registry, construction count bumped once); after two calls
with no disposal exactly one live instance occupies the slot and the
second call never constructs. -/
theorem createOrShow_spec :
    ∀ (s : ManagerState) (n1 n2 : String),
      (∀ inst, s.currentPanel = some inst →
        createOrShow s n1 = (s, .revealExistingAndUpdate)) ∧
      (s.currentPanel = none →
        createOrShow s n1 =
          (⟨some ⟨n1, initialDisposables, ""⟩, s.constructedCount + 1⟩,
           .constructNew)) ∧
      ((createOrShow (createOrShow s n1).1 n2).1.currentPanel.isSome =
        true ∧
       (createOrShow (createOrShow s n1).1 n2).2 =
        .revealExistingAndUpdate ∧
       (createOrShow (createOrShow s n1).1 n2).1 = (createOrShow s n1).1 ∧
       (createOrShow (createOrShow s n1).1 n2).1.constructedCount ≤
        s.constructedCount + 1) := by
  intro s n1 n2
  refine ⟨?_, ?_, ?_⟩
  · intro inst h; simp [createOrShow, h]
  · intro h; simp [createOrShow, h, mkInstance]
  · cases hp : s.currentPanel with
    | some inst => simp [createOrShow, hp]
    | none => simp [createOrShow, hp, mkInstance]

/-- C9 witness: two calls from the empty state construct exactly once,
and the second call reuses the instance. -/
theorem createOrShow_spec_witness :
    createOrShow ⟨none, 0⟩ "aa" =
      (⟨some ⟨"aa", initialDisposables, ""⟩, 1⟩, .constructNew) ∧
    (createOrShow (createOrShow ⟨none, 0⟩ "aa").1
      "bb").1.constructedCount ≤ 1 :=
  ⟨(createOrShow_spec ⟨none, 0⟩ "aa" "bb").2.1 rfl,
   (createOrShow_spec ⟨none, 0⟩ "aa" "bb").2.2.2.2.2⟩

/-! ### Lemmas for the outdated-window render -/

theorem windowTexts_outdated {w : UsageWindow} (hw : w.outdated = true) :
    windowTimeText w = "N/A" ∧ windowUsageText w = "N/A" ∧
    windowTimePercent w = .num 0 ∧ windowUsagePercent w = .num 0 := by
  refine ⟨?_, ?_, ?_, ?_⟩ <;>
    simp [windowTimeText, windowUsageText, windowTimePercent,
      windowUsagePercent, hw]

theorem jsNumToString_zero : jsNumToString (.num 0) = "0" := by decide

theorem renderWindowSection_outdated_na (header l1 l2 idp : String)
    (w : UsageWindow) (warnT critT : JSNum) (hw : w.outdated = true) :
    ∃ s t u, (renderWindowSection header l1 l2 idp w warnT critT).data =
      s ++ ("N/A" : String).data ++ t ++ ("N/A" : String).data ++ u := by
  refine ⟨(sectionP1 header l1
      (getProgressClass (windowTimePercent w) w.outdated) idp).data,
    (sectionP2 w.reset_time.localeString
      (if w.outdated then " [OUTDATED]" else "") l2
      (getUsageClass (windowUsagePercent w) w.outdated warnT critT)
      idp).data,
    sectionP3.data, ?_⟩
  rw [renderWindowSection, (windowTexts_outdated hw).1,
    (windowTexts_outdated hw).2.1]
  simp [String.data_append, List.append_assoc]

theorem na_parts_append_right {x y : String}
    (h : ∃ s t u, x.data = s ++ ("N/A" : String).data ++ t ++
      ("N/A" : String).data ++ u) :
    ∃ s t u, (x ++ y).data = s ++ ("N/A" : String).data ++ t ++
      ("N/A" : String).data ++ u := by
  obtain ⟨s, t, u, hx⟩ := h
  exact ⟨s, t, u ++ y.data,
    by rw [String.data_append, hx]; simp [List.append_assoc]⟩

theorem na_parts_append_left {x y : String}
    (h : ∃ s t u, x.data = s ++ ("N/A" : String).data ++ t ++
      ("N/A" : String).data ++ u) :
    ∃ s t u, (y ++ x).data = s ++ ("N/A" : String).data ++ t ++
      ("N/A" : String).data ++ u := by
  obtain ⟨s, t, u, hx⟩ := h
  exact ⟨y.data ++ s, t, u,
    by rw [String.data_append, hx]; simp [List.append_assoc]⟩

/-- C5: for every snapshot and every present window whose outdated flag
is set, the rendered markup shows the literal "N/A" for both the time
and the usage value, the pushed width rules for both of that window's
bars read `width: 0%`, and the rendering is independent of the
underlying numeric percent fields (they are never displayed). -/
theorem outdated_render_spec :
    ∀ (data : RateLimitData) (cfg : RatelimitConfig) (w : UsageWindow),
      w.outdated = true →
      (windowTimeText w = "N/A" ∧ windowUsageText w = "N/A" ∧
        windowTimePercent w = .num 0 ∧ windowUsagePercent w = .num 0) ∧
      (data.primary = some w →
        (timeFillRule "primary" (windowTimePercent w) =
          "#primary-time-fill \x7b width: 0%; \x7d" ∧
         usageFillRule "primary" (windowUsagePercent w) =
          "#primary-usage-fill \x7b width: 0%; \x7d" ∧
         timeFillRule "primary" (windowTimePercent w) ∈
          (renderProgressSection data cfg).2 ∧
         usageFillRule "primary" (windowUsagePercent w) ∈
          (renderProgressSection data cfg).2) ∧
        (∃ s t u, (renderProgressSection data cfg).1.data =
          s ++ ("N/A" : String).data ++ t ++ ("N/A" : String).data ++ u)) ∧
      (data.secondary = some w →
        (timeFillRule "secondary" (windowTimePercent w) =
          "#secondary-time-fill \x7b width: 0%; \x7d" ∧
         usageFillRule "secondary" (windowUsagePercent w) =
          "#secondary-usage-fill \x7b width: 0%; \x7d" ∧
         timeFillRule "secondary" (windowTimePercent w) ∈
          (renderProgressSection data cfg).2 ∧
         usageFillRule "secondary" (windowUsagePercent w) ∈
          (renderProgressSection data cfg).2) ∧
        (∃ s t u, (renderProgressSection data cfg).1.data =
          s ++ ("N/A" : String).data ++ t ++ ("N/A" : String).data ++ u)) ∧
      (∀ w', w'.outdated = true → w'.reset_time = w.reset_time →
        ∀ (header l1 l2 idp : String) (warnT critT : JSNum),
          renderWindowSection header l1 l2 idp w warnT critT =
          renderWindowSection header l1 l2 idp w' warnT critT) := by
  intro data cfg w hw
  have hz := windowTexts_outdated hw
  refine ⟨hz, ?_, ?_, ?_⟩
  · intro hp
    constructor
    · refine ⟨?_, ?_, ?_, ?_⟩
      · rw [hz.2.2.1]; rw [timeFillRule, jsNumToString_zero]; rfl
      · rw [hz.2.2.2]; rw [usageFillRule, jsNumToString_zero]; rfl
      · simp [renderProgressSection, hp]
      · simp [renderProgressSection, hp]
    · rcases hsec : data.secondary with _ | w2 <;>
        simp only [renderProgressSection, hp, hsec] <;>
        exact na_parts_append_right
          (renderWindowSection_outdated_na _ _ _ _ w _ _ hw)
  · intro hp
    constructor
    · refine ⟨?_, ?_, ?_, ?_⟩
      · rw [hz.2.2.1]; rw [timeFillRule, jsNumToString_zero]; rfl
      · rw [hz.2.2.2]; rw [usageFillRule, jsNumToString_zero]; rfl
      · rcases hprim : data.primary with _ | w1 <;>
          simp [renderProgressSection, hp, hprim]
      · rcases hprim : data.primary with _ | w1 <;>
          simp [renderProgressSection, hp, hprim]
    · rcases hprim : data.primary with _ | w1 <;>
        simp only [renderProgressSection, hp, hprim] <;>
        exact na_parts_append_left
          (renderWindowSection_outdated_na _ _ _ _ w _ _ hw)
  · intro w' hw' hr header l1 l2 idp warnT critT
    have hz' := windowTexts_outdated hw'
    rw [renderWindowSection, renderWindowSection, hz.1, hz'.1, hz.2.1,
      hz'.2.1, hz.2.2.1, hz'.2.2.1, hz.2.2.2, hz'.2.2.2, hw, hw', hr]

/-- C5 witness: both windows of the sample snapshot are outdated; the
primary bar rules read 0% and the markup shows "N/A". -/
theorem outdated_render_spec_witness :
    windowTimeText sampleOutdatedWindow = "N/A" ∧
    windowUsageText sampleOutdatedWindow = "N/A" ∧
    timeFillRule "primary" (windowTimePercent sampleOutdatedWindow) ∈
      (renderProgressSection sampleData sampleCfg).2 ∧
    (∃ s t u, (renderProgressSection sampleData sampleCfg).1.data =
      s ++ ("N/A" : String).data ++ t ++ ("N/A" : String).data ++ u) :=
  ⟨(outdated_render_spec sampleData sampleCfg sampleOutdatedWindow
      rfl).1.1,
   (outdated_render_spec sampleData sampleCfg sampleOutdatedWindow
      rfl).1.2.1,
   (((outdated_render_spec sampleData sampleCfg sampleOutdatedWindow
      rfl).2.1 rfl).1).2.2.1,
   ((outdated_render_spec sampleData sampleCfg sampleOutdatedWindow
      rfl).2.1 rfl).2⟩

end CodexRL
